import Mathlib

/-!
Verification of the structured-logging service of the BunForge repository
(`src/services/logger.js`) against its natural-language specification.

The logger is shallowly embedded: the host environment (browser flag,
availability of the `bun:sqlite` module, failure behaviour of the host I/O
primitives) is an explicit `Env`, the mutable outside world (file system,
databases, console output) is an explicit `World` threaded through every
operation, and JavaScript exceptions are modelled with `Except`.
-/

set_option autoImplicit false

namespace BunForge

/-- A line emitted on the process's console, tagged with the console method
used (`console.log` / `console.warn` / `console.error`).  `console.error`
and `console.warn` calls of the source that pass a second error argument are
modelled by their first (string) argument only. -/
inductive ConsoleEvent where
  | log (s : String)
  | warn (s : String)
  | error (s : String)
  deriving Repr, DecidableEq

/-- A JavaScript exception escaping a logger operation.  The two
`throw new Error(...)` statements of the constructor are the configuration
errors of the spec; any other exception of a host primitive is `ioError`. -/
inductive JsError where
  | configError (msg : String)
  | ioError (msg : String)
  deriving Repr, DecidableEq

/-- One row of the SQLite `logs` table. -/
structure Row where
  id : Nat
  timestamp : String
  level : String
  message : String
  deriving Repr, DecidableEq

/-- The state of one SQLite database file: its `logs` rows, the next
AUTOINCREMENT id, and whether the connection is currently open. -/
structure DbState where
  rows : List Row
  nextId : Nat
  isOpen : Bool
  deriving Repr, DecidableEq

/-- The outside world: file contents by path, database states by path, and
the console output emitted so far (in order). -/
structure World where
  fs : List (String × String)
  dbs : List (String × DbState)
  events : List ConsoleEvent
  deriving Repr, DecidableEq

/-- The host environment: `browser` is `typeof window !== "undefined"`;
`sqliteLoaded` says whether the conditional top-level
`import("bun:sqlite")` succeeded (`Database !== null`); the three failure
flags say, per path, whether a host primitive throws there
(`dbInitFails` covers `new Database(path)` and the `CREATE TABLE` run,
`dbCloseFails` covers `db.close()`, `headerWriteFails` covers the
construction-time `Bun.writeFileSync` of the CSV header). -/
structure Env where
  browser : Bool
  sqliteLoaded : Bool
  dbInitFails : String → Bool
  dbCloseFails : String → Bool
  headerWriteFails : String → Bool

/-- The `options` argument of the constructor. -/
structure Options where
  type : Option String
  filePath : Option String
  dbPath : Option String
  deriving Repr, DecidableEq

/-- The logger instance: the fields assigned by the constructor
(`this.type`, `this.filePath`, `this.dbPath`, `this.db`).  The database
handle `db` is the path of the database it is connected to. -/
structure Logger where
  type : String
  filePath : Option String
  dbPath : Option String
  db : Option String
  deriving Repr, DecidableEq

/-- JavaScript `a || b` on an optional string (`undefined` and `""` are
falsy). -/
def jsOr (o : Option String) (d : String) : String :=
  match o with
  | none => d
  | some s => if s = "" then d else s

/-- JavaScript truthiness of an optional string option (`!options.x`):
`none` for `undefined` and for the empty string. -/
def jsStrOpt (o : Option String) : Option String :=
  match o with
  | none => none
  | some s => if s = "" then none else some s

/-- First-match lookup in an association list keyed by strings. -/
def lookupStr {α : Type} (m : List (String × α)) (k : String) : Option α :=
  match m with
  | [] => none
  | (k', v) :: rest => if k' = k then some v else lookupStr rest k

/-- Update (or insert) the binding of `k` in an association list. -/
def setStr {α : Type} (m : List (String × α)) (k : String) (v : α) :
    List (String × α) :=
  match m with
  | [] => [(k, v)]
  | (k', v') :: rest =>
    if k' = k then (k, v) :: rest else (k', v') :: setStr rest k v

/-- `Bun.write(path, data, { append: true })`: append to the file, creating
it when absent (the spec's file-append primitive). -/
def appendFile (fs : List (String × String)) (p s : String) :
    List (String × String) :=
  setStr fs p ((lookupStr fs p).getD "" ++ s)

/-- `new Database(path)` plus the idempotent `CREATE TABLE IF NOT EXISTS`:
create the database when absent, otherwise (re)open it keeping its rows. -/
def dbOpen (dbs : List (String × DbState)) (p : String) :
    List (String × DbState) :=
  match lookupStr dbs p with
  | none => setStr dbs p ⟨[], 1, true⟩
  | some d => setStr dbs p ⟨d.rows, d.nextId, true⟩

/-- `db.close()`: mark the connection released. -/
def dbRelease (dbs : List (String × DbState)) (p : String) :
    List (String × DbState) :=
  match lookupStr dbs p with
  | none => dbs
  | some d => setStr dbs p ⟨d.rows, d.nextId, false⟩

/-- The header line written when the CSV file does not yet exist. -/
def csvHeader : String := "timestamp,level,message\n"

/-- `message.replace(/"/g, '""')` on the underlying character list. -/
def escQ : List Char → List Char
  | [] => []
  | c :: cs => if c = '"' then '"' :: '"' :: escQ cs else c :: escQ cs

/-- `message.replace(/"/g, '""')`: double every double-quote character. -/
def escapeQuotes (s : String) : String := ⟨escQ s.data⟩

/-- The CSV line appended per `log` call:
`"<timestamp>","<level>","<escaped message>"` plus newline. -/
def csvLine (ts lvl msg : String) : String :=
  "\"" ++ ts ++ "\",\"" ++ lvl ++ "\",\"" ++ escapeQuotes msg ++ "\"\n"

/-- `String.prototype.toUpperCase` (ASCII range, which is all the source's
levels use). -/
def jsToUpper (s : String) : String := ⟨s.data.map Char.toUpper⟩

/-- `` `[${timestamp}] [${level.toUpperCase()}] ${message}` `` -/
def fmtLine (ts lvl msg : String) : String :=
  "[" ++ ts ++ "] [" ++ jsToUpper lvl ++ "] " ++ msg

/-- The constructor `new Logger(options)` (src/services/logger.js,
`Logger.constructor`).  Mirrors the source's branch order: resolve
`this.type` with `options.type || "console"`; for `"csv"` require
`filePath`, then `try Bun.statSync` / on absence `Bun.writeFileSync` the
header (an uncaught failure of that write propagates); for `"sqlite"`
check the browser first (silent downgrade with `console.warn`), then
require `dbPath`, then check the module (`console.error` downgrade), then
open the database and create the table inside `try`/`catch`
(`console.error` downgrade on failure). -/
def mkLogger (env : Env) (opts : Options) (w : World) :
    Except JsError (Logger × World) :=
  if jsOr opts.type "console" = "csv" then
    match jsStrOpt opts.filePath with
    | none => .error (.configError "CSV logging requires a 'filePath' option.")
    | some fp =>
      if (lookupStr w.fs fp).isSome then
        .ok (⟨"csv", some fp, none, none⟩, w)
      else if env.headerWriteFails fp then
        .error (.ioError "Bun.writeFileSync failed")
      else
        .ok (⟨"csv", some fp, none, none⟩,
             { w with fs := setStr w.fs fp csvHeader })
  else if jsOr opts.type "console" = "sqlite" then
    if env.browser then
      .ok (⟨"console", none, none, none⟩,
           { w with events := w.events ++
               [.warn "SQLite logging is not supported in the browser. Falling back to console logging."] })
    else
      match jsStrOpt opts.dbPath with
      | none => .error (.configError "SQLite logging requires a 'dbPath' option.")
      | some dp =>
        if !env.sqliteLoaded then
          .ok (⟨"console", none, some dp, none⟩,
               { w with events := w.events ++
                   [.error "Database module is not available."] })
        else if env.dbInitFails dp then
          .ok (⟨"console", none, some dp, none⟩,
               { w with events := w.events ++
                   [.error "Failed to initialize SQLite database:"] })
        else
          .ok (⟨"sqlite", none, some dp, some dp⟩,
               { w with dbs := dbOpen w.dbs dp })
  else
    .ok (⟨jsOr opts.type "console", none, none, none⟩, w)

/-- `logger.log(level, message)` (src/services/logger.js, `Logger.log`).
`ts` is the value of `new Date().toISOString()` at the call; `ioOk` says
whether the underlying host write/insert primitive of this call succeeds.
The `"csv"` arm's `Bun.write(...).catch` and the `"sqlite"` arm's
`try`/`catch` report failures with `console.error` and never rethrow. -/
def Logger.log (L : Logger) (ioOk : Bool) (ts lvl msg : String) (w : World) :
    Except JsError (Logger × World) :=
  if L.type = "console" then
    .ok (L, { w with events := w.events ++ [.log (fmtLine ts lvl msg)] })
  else if L.type = "csv" then
    match L.filePath with
    | some fp =>
      if ioOk then
        .ok (L, { w with fs := appendFile w.fs fp (csvLine ts lvl msg) })
      else
        .ok (L, { w with events := w.events ++
            [.error "Failed to write to the CSV file:"] })
    | none =>
      .ok (L, { w with events := w.events ++
          [.error "Failed to write to the CSV file:"] })
  else if L.type = "sqlite" then
    match L.db with
    | some dp =>
      match lookupStr w.dbs dp with
      | some d =>
        if d.isOpen && ioOk then
          let d' : DbState := ⟨d.rows ++ [⟨d.nextId, ts, lvl, msg⟩], d.nextId + 1, d.isOpen⟩
          .ok (L, { w with dbs := setStr w.dbs dp d' })
        else
          .ok (L, { w with events := w.events ++
              [.error "Failed to insert log into SQLite database:"] })
      | none =>
        .ok (L, { w with events := w.events ++
            [.error "Failed to insert log into SQLite database:"] })
    | none =>
      .ok (L, { w with events := w.events ++
          [.error "Failed to insert log into SQLite database:"] })
  else
    .ok (L, { w with events := w.events ++ [.log (fmtLine ts lvl msg)] })

/-- `logger.close()` (src/services/logger.js, `Logger.close`):
`if (this.type === "sqlite" && this.db) try { this.db.close() } catch`. -/
def Logger.close (env : Env) (L : Logger) (w : World) :
    Except JsError (Logger × World) :=
  if L.type = "sqlite" then
    match L.db with
    | some dp =>
      if env.dbCloseFails dp then
        .ok (L, { w with events := w.events ++
            [.error "Error closing the SQLite database:"] })
      else
        .ok (L, { w with dbs := dbRelease w.dbs dp })
    | none => .ok (L, w)
  else
    .ok (L, w)

/-- N sequential successful-I/O `log` calls on one logger instance, each
call given as `(timestamp, level, message)`. -/
def logMany (L : Logger) (calls : List (String × String × String))
    (w : World) : World :=
  match calls with
  | [] => w
  | c :: rest =>
    match L.log true c.1 c.2.1 c.2.2 w with
    | .ok (L', w') => logMany L' rest w'
    | .error _ => w

/-- `true` iff construction succeeded or raised one of the constructor's
own `ConfigurationError`s (never a host I/O error). -/
def okOrConfig : Except JsError (Logger × World) → Bool
  | .ok _ => true
  | .error (.configError _) => true
  | .error (.ioError _) => false

/-- `true` iff the operation returned normally (raised nothing). -/
def exOk : Except JsError (Logger × World) → Bool
  | .ok _ => true
  | .error _ => false

/-- `true` iff the operation raised a `ConfigurationError`. -/
def raisesConfig : Except JsError (Logger × World) → Bool
  | .error (.configError _) => true
  | _ => false

/-- Well-formedness established by the constructor: a `"csv"` logger always
carries its file path (the constructor throws before leaving it unset). -/
def wfB (L : Logger) : Bool :=
  if L.type = "csv" then L.filePath.isSome else true

/-- Whether the underlying backend write of a single `log` call fails:
for `"csv"` the `Bun.write` promise rejects; for `"sqlite"` the insert
throws (host failure, missing handle, or a closed connection). -/
def writeWillFail (L : Logger) (w : World) (ioOk : Bool) : Bool :=
  if L.type = "csv" then !ioOk
  else if L.type = "sqlite" then
    !ioOk ||
      (match L.db with
       | none => true
       | some dp =>
         match lookupStr w.dbs dp with
         | none => true
         | some d => !d.isOpen)
  else false

/-- The `console.error` text reported for a failed write of each backend. -/
def writeFailMsg (L : Logger) : String :=
  if L.type = "csv" then "Failed to write to the CSV file:"
  else "Failed to insert log into SQLite database:"

/-- Whether a `"sqlite"` construction downgrades to `"console"`:
browser context, missing database module, or failing initialization. -/
def sqliteDowngraded (env : Env) (opts : Options) : Bool :=
  env.browser || !env.sqliteLoaded ||
    (match jsStrOpt opts.dbPath with
     | some dp => env.dbInitFails dp
     | none => false)

/-- The single diagnostic emitted by a `"sqlite"` downgrade: `console.warn`
in the browser case, `console.error` in the module-unavailable and
initialization-failure cases. -/
def sqliteDowngradeDiag (env : Env) : ConsoleEvent :=
  if env.browser then
    .warn "SQLite logging is not supported in the browser. Falling back to console logging."
  else if !env.sqliteLoaded then
    .error "Database module is not available."
  else
    .error "Failed to initialize SQLite database:"

/-- Two consecutive `close()` calls on the same logger. -/
def closeTwice (env : Env) (L : Logger) (w : World) :
    Except JsError (Logger × World) :=
  match Logger.close env L w with
  | .ok (L', w') => Logger.close env L' w'
  | .error e => .error e

/-- Number of newline characters in a character list. -/
def countNL : List Char → Nat
  | [] => 0
  | c :: cs => (if c = '\n' then 1 else 0) + countNL cs

/-- Number of newline-terminated lines of a file whose every write ends in
`"\n"`: the number of newline characters. -/
def countLines (s : String) : Nat := countNL s.data

/-- Concatenation of a list of strings, in order. -/
def joinAll : List String → String
  | [] => ""
  | s :: rest => s ++ joinAll rest

/-- The rows the `logs` table holds after inserting `calls` (in order) into
a table whose next AUTOINCREMENT id is `n`. -/
def mkRows : Nat → List (String × String × String) → List Row
  | _, [] => []
  | n, c :: rest => ⟨n, c.1, c.2.1, c.2.2⟩ :: mkRows (n + 1) rest

/-- The contiguous increasing id sequence `a, a+1, ..., a+n-1`. -/
def idsFrom : Nat → Nat → List Nat
  | _, 0 => []
  | a, n + 1 => a :: idsFrom (a + 1) n

/-- `true` iff some emitted console line is warning-level. -/
def hasWarn (l : List ConsoleEvent) : Bool :=
  l.any fun e => match e with | .warn _ => true | _ => false

/-- A non-browser environment in which every host primitive succeeds. -/
def envOk : Env := ⟨false, true, fun _ => false, fun _ => false, fun _ => false⟩

/-- A browser environment (`typeof window !== "undefined"`, so the
`bun:sqlite` import never ran). -/
def envBrowser : Env := ⟨true, false, fun _ => false, fun _ => false, fun _ => false⟩

/-- A non-browser environment in which the `bun:sqlite` import failed. -/
def envNoDb : Env := ⟨false, false, fun _ => false, fun _ => false, fun _ => false⟩

/-- A non-browser environment in which the construction-time header write
(`Bun.writeFileSync`) fails on every path. -/
def envHdrFail : Env := ⟨false, true, fun _ => false, fun _ => false, fun _ => true⟩

/-- The empty world: no files, no databases, no console output yet. -/
def w0 : World := ⟨[], [], []⟩

/-- Construct an EmbeddedTable sink over a fresh database and `close()` it:
the state used to exercise `record()`-after-`close()`. -/
def c4Closed : Logger × World :=
  match mkLogger envOk ⟨some "sqlite", none, some "db"⟩ w0 with
  | .ok (L, w₁) =>
    match Logger.close envOk L w₁ with
    | .ok (L', w₂) => (L', w₂)
    | .error _ => (L, w₁)
  | .error _ => (⟨"console", none, none, none⟩, w0)

/-- Construct a DelimitedFile sink over a missing file and `log` once with
a newline-containing message. -/
def c5cexRun : World :=
  match mkLogger envOk ⟨some "csv", some "log.csv", none⟩ w0 with
  | .ok (L, w₁) => logMany L [("T", "info", "a\nb")] w₁
  | .error _ => w0

/-- A world holding an already-created CSV log file at path `"f"`. -/
def wCsv : World := ⟨[("f", "timestamp,level,message\n")], [], []⟩

/-- The logger and world produced by requesting `"sqlite"` in a non-browser
environment whose `bun:sqlite` module failed to load. -/
def c3cexResult : Logger × World :=
  match mkLogger envNoDb ⟨some "sqlite", none, some "db"⟩ w0 with
  | .ok p => p
  | .error _ => (⟨"x", none, none, none⟩, w0)

theorem data_append (s t : String) : (s ++ t).data = s.data ++ t.data := by
  cases s; cases t; rfl

theorem lookupStr_setStr_self {α : Type} (m : List (String × α)) (k : String)
    (v : α) : lookupStr (setStr m k v) k = some v := by
  induction m with
  | nil => simp [setStr, lookupStr]
  | cons p rest ih =>
    by_cases h : p.1 = k <;> simp [setStr, lookupStr, h, ih]

theorem countNL_append (a b : List Char) :
    countNL (a ++ b) = countNL a + countNL b := by
  induction a with
  | nil => simp [countNL]
  | cons c cs ih => simp [countNL, ih]; omega

theorem countLines_append (s t : String) :
    countLines (s ++ t) = countLines s + countLines t := by
  simp [countLines, data_append, countNL_append]

theorem countNL_escQ (l : List Char) : countNL (escQ l) = countNL l := by
  induction l with
  | nil => rfl
  | cons c cs ih =>
    by_cases h : c = '"'
    · subst h
      simp [escQ, countNL, ih]
    · simp [escQ, countNL, h, ih]

theorem countLines_csvLine (ts lvl msg : String)
    (h1 : countLines ts = 0) (h2 : countLines lvl = 0)
    (h3 : countLines msg = 0) :
    countLines (csvLine ts lvl msg) = 1 := by
  have hesc : countLines (escapeQuotes msg) = 0 := by
    simpa [countLines, escapeQuotes, countNL_escQ] using h3
  simp [csvLine, countLines_append, h1, h2, hesc]
  decide

theorem countLines_joinAll (ls : List String)
    (h : ∀ s ∈ ls, countLines s = 1) :
    countLines (joinAll ls) = ls.length := by
  induction ls with
  | nil => rfl
  | cons s rest ih =>
    have hs : countLines s = 1 := h s (List.mem_cons_self s rest)
    have hr : countLines (joinAll rest) = rest.length :=
      ih fun x hx => h x (List.mem_cons_of_mem s hx)
    simp [joinAll, countLines_append, hs, hr, Nat.add_comm]

theorem escQ_join (l : List Char) :
    String.mk (escQ l)
      = joinAll (l.map fun ch => if ch = '"' then "\"\"" else String.singleton ch) := by
  induction l with
  | nil => rfl
  | cons c cs ih =>
    by_cases h : c = '"'
    · subst h
      have hstep : escQ ('"' :: cs) = '"' :: '"' :: escQ cs := by simp [escQ]
      rw [hstep]
      simp only [List.map_cons, joinAll, if_pos rfl]
      rw [← ih]
      rfl
    · have hstep : escQ (c :: cs) = c :: escQ cs := by simp [escQ, h]
      rw [hstep]
      simp only [List.map_cons, joinAll, if_neg h]
      rw [← ih]
      rfl

theorem mkRows_map_id (calls : List (String × String × String)) :
    ∀ n, (mkRows n calls).map Row.id = idsFrom n calls.length := by
  induction calls with
  | nil => intro n; rfl
  | cons c rest ih =>
    intro n
    simp [mkRows, idsFrom, ih]

theorem mkRows_length (calls : List (String × String × String)) :
    ∀ n, (mkRows n calls).length = calls.length := by
  induction calls with
  | nil => intro n; rfl
  | cons c rest ih => intro n; simp [mkRows, ih]

theorem logMany_csv (fp : String) (calls : List (String × String × String)) :
    ∀ (L : Logger) (w : World) (c : String),
      L.type = "csv" → L.filePath = some fp → lookupStr w.fs fp = some c →
      lookupStr (logMany L calls w).fs fp
        = some (c ++ joinAll (calls.map fun x => csvLine x.1 x.2.1 x.2.2)) := by
  induction calls with
  | nil =>
    intro L w c _ _ hc
    simpa [logMany, joinAll] using hc
  | cons x rest ih =>
    intro L w c hT hF hc
    have hlog : L.log true x.1 x.2.1 x.2.2 w
        = .ok (L, { w with fs := setStr w.fs fp (c ++ csvLine x.1 x.2.1 x.2.2) }) := by
      simp [Logger.log, hT, hF, appendFile, hc]
    have hstep : logMany L (x :: rest) w
        = logMany L rest { w with fs := setStr w.fs fp (c ++ csvLine x.1 x.2.1 x.2.2) } := by
      simp [logMany, hlog]
    rw [hstep,
      ih L _ (c ++ csvLine x.1 x.2.1 x.2.2) hT hF (lookupStr_setStr_self w.fs fp _)]
    simp [joinAll, String.append_assoc]

theorem logMany_sqlite (dp : String) (calls : List (String × String × String)) :
    ∀ (L : Logger) (w : World) (d : DbState),
      L.type = "sqlite" → L.db = some dp →
      lookupStr w.dbs dp = some d → d.isOpen = true →
      lookupStr (logMany L calls w).dbs dp
        = some ⟨d.rows ++ mkRows d.nextId calls, d.nextId + calls.length, true⟩ := by
  induction calls with
  | nil =>
    intro L w d _ _ hd ho
    obtain ⟨rows, nextId, isOpenFlag⟩ := d
    simp only at ho
    subst ho
    simpa [logMany, mkRows] using hd
  | cons x rest ih =>
    intro L w d hT hD hd ho
    have hlog : L.log true x.1 x.2.1 x.2.2 w
        = .ok (L, { w with dbs := (setStr w.dbs dp
            ⟨d.rows ++ [⟨d.nextId, x.1, x.2.1, x.2.2⟩], d.nextId + 1, true⟩) }) := by
      simp [Logger.log, hT, hD, hd, ho]
    have hstep : logMany L (x :: rest) w
        = logMany L rest { w with dbs := (setStr w.dbs dp
            ⟨d.rows ++ [⟨d.nextId, x.1, x.2.1, x.2.2⟩], d.nextId + 1, true⟩) } := by
      simp [logMany, hlog]
    rw [hstep,
      ih L _ ⟨d.rows ++ [⟨d.nextId, x.1, x.2.1, x.2.2⟩], d.nextId + 1, true⟩ hT hD
        (lookupStr_setStr_self w.dbs dp _) rfl]
    simp [mkRows, List.append_assoc]
    omega

/-- C8: on a Console sink, `record(level, message)` never fails and emits
exactly one formatted console line `[<timestamp>] [<LEVEL>] <message>` with
the level upper-cased; nothing else in the world changes. -/
theorem c8_console_record (L : Logger) (ioOk : Bool) (ts lvl msg : String)
    (w : World) (h : L.type = "console") :
    L.log ioOk ts lvl msg w
      = .ok (L, { w with events := w.events ++
          [ConsoleEvent.log ("[" ++ ts ++ "] [" ++ jsToUpper lvl ++ "] " ++ msg)] }) := by
  simp [Logger.log, fmtLine, h]

/-- C8 witness: `record("info", "hello")` on a Console sink produces one
line that visibly contains the substrings `INFO` and `hello`. -/
theorem c8_console_record_witness :
    Logger.log ⟨"console", none, none, none⟩ true "2026-01-01T00:00:00.000Z" "info" "hello" w0
      = .ok (⟨"console", none, none, none⟩,
          ⟨[], [], [ConsoleEvent.log "[2026-01-01T00:00:00.000Z] [INFO] hello"]⟩)
    ∧ "[2026-01-01T00:00:00.000Z] [INFO] hello"
        = "[2026-01-01T00:00:00.000Z] [" ++ "INFO" ++ "] " ++ "hello" := by
  constructor
  · exact c8_console_record ⟨"console", none, none, none⟩ true
      "2026-01-01T00:00:00.000Z" "info" "hello" w0 rfl
  · rfl

/-- C10: any options whose resolved `type` is neither `"csv"` nor
`"sqlite"` (omitted, `"console"`, or unrecognized strings such as
`"file"`) construct successfully with no error and no file or database
side effect, and the resulting logger's `log` behaves exactly like the
Console backend. -/
theorem c10_unrecognized_type_console (env : Env) (opts : Options) (w : World)
    (h1 : jsOr opts.type "console" ≠ "csv")
    (h2 : jsOr opts.type "console" ≠ "sqlite") :
    mkLogger env opts w = .ok (⟨jsOr opts.type "console", none, none, none⟩, w)
    ∧ ∀ (ioOk : Bool) (ts lvl msg : String) (w₂ : World),
        Logger.log ⟨jsOr opts.type "console", none, none, none⟩ ioOk ts lvl msg w₂
          = .ok (⟨jsOr opts.type "console", none, none, none⟩,
              { w₂ with events := w₂.events ++ [ConsoleEvent.log (fmtLine ts lvl msg)] }) := by
  refine ⟨by simp [mkLogger, h1, h2], ?_⟩
  intro ioOk ts lvl msg w₂
  by_cases hc : jsOr opts.type "console" = "console" <;>
    simp [Logger.log, hc, h1, h2]

/-- C10 witness: the unrecognized type string `"file"` constructs with no
side effect and then logs like the Console backend. -/
theorem c10_unrecognized_type_console_witness :
    mkLogger envOk ⟨some "file", none, none⟩ w0 = .ok (⟨"file", none, none, none⟩, w0)
    ∧ Logger.log ⟨"file", none, none, none⟩ true "T" "info" "m" w0
        = .ok (⟨"file", none, none, none⟩, ⟨[], [], [ConsoleEvent.log "[T] [INFO] m"]⟩) := by
  have h := c10_unrecognized_type_console envOk ⟨some "file", none, none⟩ w0
    (by decide) (by decide)
  exact ⟨h.1, h.2 true "T" "info" "m" w0⟩

/-- C6: on a DelimitedFile sink, a successful `record` appends exactly one
chunk: the timestamp, level, and message each wrapped in double quotes,
comma-joined, newline-terminated, with every double quote of the message
doubled (and nothing else escaped). -/
theorem c6_csv_quote_escaping (L : Logger) (w : World) (fp c ts lvl msg : String)
    (hT : L.type = "csv") (hF : L.filePath = some fp)
    (hc : lookupStr w.fs fp = some c) :
    L.log true ts lvl msg w
      = .ok (L, { w with fs := setStr w.fs fp (c ++ csvLine ts lvl msg) })
    ∧ csvLine ts lvl msg
        = "\"" ++ ts ++ "\",\"" ++ lvl ++ "\",\"" ++ escapeQuotes msg ++ "\"\n"
    ∧ escapeQuotes msg
        = joinAll (msg.data.map fun ch => if ch = '"' then "\"\"" else String.singleton ch) := by
  refine ⟨?_, rfl, ?_⟩
  · simp [Logger.log, hT, hF, appendFile, hc]
  · cases msg
    exact escQ_join _

/-- C6 witness: `record("error", "a \"quoted\" value")` appends a line
whose message field reads `"a ""quoted"" value"`. -/
theorem c6_csv_quote_escaping_witness :
    Logger.log ⟨"csv", some "f", none, none⟩ true "T" "error" "a \"quoted\" value" wCsv
      = .ok (⟨"csv", some "f", none, none⟩,
          ⟨[("f", "timestamp,level,message\n" ++ "\"T\",\"error\",\"a \"\"quoted\"\" value\"\n")], [], []⟩)
    ∧ escapeQuotes "a \"quoted\" value" = "a \"\"quoted\"\" value" := by
  have h := c6_csv_quote_escaping ⟨"csv", some "f", none, none⟩ wCsv "f"
      "timestamp,level,message\n" "T" "error" "a \"quoted\" value" rfl rfl rfl
  exact ⟨h.1, by decide⟩

/-- C4: on a DelimitedFile or EmbeddedTable sink, a failing underlying
write (including an insert on a closed EmbeddedTable connection) makes the
`record` call report one `console.error` diagnostic and return normally —
it never raises to the caller, and no file or database changes. -/
theorem c4_write_failure_swallowed (L : Logger) (w : World) (ioOk : Bool)
    (ts lvl msg : String) (hwf : wfB L = true)
    (hbk : L.type = "csv" ∨ L.type = "sqlite")
    (hfail : writeWillFail L w ioOk = true) :
    L.log ioOk ts lvl msg w
      = .ok (L, { w with events := w.events ++
          [ConsoleEvent.error (writeFailMsg L)] }) := by
  rcases hbk with hT | hT
  · have hio : ioOk = false := by
      simpa [writeWillFail, hT] using hfail
    have hfp : ∃ fp, L.filePath = some fp := by
      have h := hwf
      simpa [wfB, hT, Option.isSome_iff_exists] using h
    obtain ⟨fp, hfp⟩ := hfp
    simp [Logger.log, hT, hfp, hio, writeFailMsg]
  · cases hdb : L.db with
    | none => simp [Logger.log, hT, hdb, writeFailMsg]
    | some dp =>
      cases hd : lookupStr w.dbs dp with
      | none => simp [Logger.log, hT, hdb, hd, writeFailMsg]
      | some d =>
        have hco : (d.isOpen && ioOk) = false := by
          have h := hfail
          simp [writeWillFail, hT, hdb, hd] at h
          cases ioOk <;> cases hOpen : d.isOpen <;> simp_all
        simp [Logger.log, hT, hdb, hd, hco, writeFailMsg]

/-- C4 witness: `record` after `close()` on an EmbeddedTable sink is
swallowed and only diagnostic-reported. -/
theorem c4_write_failure_swallowed_witness :
    Logger.log c4Closed.1 true "T" "info" "m" c4Closed.2
      = .ok (c4Closed.1, { c4Closed.2 with events := c4Closed.2.events ++
          [ConsoleEvent.error (writeFailMsg c4Closed.1)] }) :=
  c4_write_failure_swallowed c4Closed.1 c4Closed.2 true "T" "info" "m"
    (by decide) (Or.inr (by decide)) (by decide)

/-- C9: `close()` never raises for any backend; it is a no-op (hence
idempotent) on Console and DelimitedFile sinks; on an EmbeddedTable sink
it releases the connection, and a failing release is only
diagnostic-reported. -/
theorem c9_close_never_raises :
    (∀ (env : Env) (L : Logger) (w : World), exOk (Logger.close env L w) = true)
    ∧ (∀ (env : Env) (L : Logger) (w : World),
        L.type = "console" ∨ L.type = "csv" →
        Logger.close env L w = .ok (L, w))
    ∧ (∀ (env : Env) (L : Logger) (w : World),
        L.type = "console" ∨ L.type = "csv" →
        closeTwice env L w = Logger.close env L w)
    ∧ (∀ (env : Env) (L : Logger) (w : World) (dp : String),
        L.type = "sqlite" → L.db = some dp →
        Logger.close env L w
          = .ok (L, if env.dbCloseFails dp then
              { w with events := w.events ++
                  [ConsoleEvent.error "Error closing the SQLite database:"] }
            else { w with dbs := dbRelease w.dbs dp })) := by
  refine ⟨?_, ?_, ?_, ?_⟩
  · intro env L w
    by_cases hT : L.type = "sqlite"
    · cases hdb : L.db with
      | none => simp [Logger.close, hT, hdb, exOk]
      | some dp =>
        cases hcf : env.dbCloseFails dp <;> simp [Logger.close, hT, hdb, hcf, exOk]
    · simp [Logger.close, hT, exOk]
  · intro env L w h
    rcases h with h | h <;> simp [Logger.close, h]
  · intro env L w h
    rcases h with h | h <;> simp [closeTwice, Logger.close, h]
  · intro env L w dp hT hdb
    cases hcf : env.dbCloseFails dp <;> simp [Logger.close, hT, hdb, hcf]

/-- C9 witness: a DelimitedFile sink's `close()` is a no-op, and an
EmbeddedTable sink's `close()` releases the database connection. -/
theorem c9_close_never_raises_witness :
    Logger.close envOk ⟨"csv", some "f", none, none⟩ w0
      = .ok (⟨"csv", some "f", none, none⟩, w0)
    ∧ Logger.close envOk ⟨"sqlite", none, some "db", some "db"⟩
        ⟨[], [("db", ⟨[], 1, true⟩)], []⟩
      = .ok (⟨"sqlite", none, some "db", some "db"⟩,
          ⟨[], [("db", ⟨[], 1, false⟩)], []⟩) := by
  constructor
  · exact c9_close_never_raises.2.1 envOk ⟨"csv", some "f", none, none⟩ w0 (Or.inr rfl)
  · have h := c9_close_never_raises.2.2.2 envOk ⟨"sqlite", none, some "db", some "db"⟩
      ⟨[], [("db", ⟨[], 1, true⟩)], []⟩ "db" rfl rfl
    simpa [envOk, dbRelease, lookupStr, setStr] using h

/-- C5 (amended): after N sequential successful `record` calls on a fresh
DelimitedFile sink whose target file did not previously exist, and whose
timestamps, levels, and messages contain no newline character, the file is
exactly the header followed by the N entries in call order, and contains
exactly N+1 lines. -/
theorem c5_csv_line_count (env : Env) (opts : Options) (w : World) (fp : String)
    (L : Logger) (w₁ : World) (calls : List (String × String × String))
    (ht : jsOr opts.type "console" = "csv")
    (hfp : jsStrOpt opts.filePath = some fp)
    (hfresh : lookupStr w.fs fp = none)
    (hmk : mkLogger env opts w = .ok (L, w₁))
    (hnl : ∀ c ∈ calls,
      countLines c.1 = 0 ∧ countLines c.2.1 = 0 ∧ countLines c.2.2 = 0) :
    lookupStr (logMany L calls w₁).fs fp
      = some (csvHeader ++ joinAll (calls.map fun x => csvLine x.1 x.2.1 x.2.2))
    ∧ countLines (csvHeader ++ joinAll (calls.map fun x => csvLine x.1 x.2.1 x.2.2))
      = calls.length + 1 := by
  simp only [mkLogger, ht, reduceIte, hfp, hfresh, Option.isSome_none,
    Bool.false_eq_true] at hmk
  split at hmk
  · simp at hmk
  · rw [Except.ok.injEq, Prod.mk.injEq] at hmk
    obtain ⟨hL, hw⟩ := hmk
    subst hL; subst hw
    constructor
    · exact logMany_csv fp calls _ _ csvHeader rfl rfl
        (lookupStr_setStr_self w.fs fp csvHeader)
    · have hone : ∀ s ∈ calls.map fun x => csvLine x.1 x.2.1 x.2.2,
          countLines s = 1 := by
        intro s hs
        rw [List.mem_map] at hs
        obtain ⟨x, hx, rfl⟩ := hs
        exact countLines_csvLine x.1 x.2.1 x.2.2
          (hnl x hx).1 (hnl x hx).2.1 (hnl x hx).2.2
      rw [countLines_append, countLines_joinAll _ hone, List.length_map]
      have hh : countLines csvHeader = 1 := by decide
      omega

/-- C5 witness: one newline-free `record` call on a fresh DelimitedFile
sink leaves the header plus one entry — two lines. -/
theorem c5_csv_line_count_witness :
    lookupStr (logMany ⟨"csv", some "log.csv", none, none⟩
        [("T1", "info", "hello")] ⟨[("log.csv", csvHeader)], [], []⟩).fs "log.csv"
      = some (csvHeader ++ joinAll [csvLine "T1" "info" "hello"])
    ∧ countLines (csvHeader ++ joinAll [csvLine "T1" "info" "hello"]) = 2 := by
  have h := c5_csv_line_count envOk ⟨some "csv", some "log.csv", none⟩ w0 "log.csv"
      ⟨"csv", some "log.csv", none, none⟩ ⟨[("log.csv", csvHeader)], [], []⟩
      [("T1", "info", "hello")] rfl rfl rfl rfl (by decide)
  exact h

/-- C5 counterexample: a single `record` call whose message contains a
newline (`"a\nb"`) leaves a file with 3 lines, not the claimed N+1 = 2. -/
theorem c5_csv_line_count_cex :
    (lookupStr c5cexRun.fs "log.csv").map countLines ≠ some 2
    ∧ (lookupStr c5cexRun.fs "log.csv").map countLines = some 3 := by
  constructor <;> decide

/-- C7: after N sequential successful `record` calls on a fresh
EmbeddedTable sink over a new database, the `logs` table holds exactly one
row per call, with ids forming the contiguous increasing sequence
1, 2, ..., N. -/
theorem c7_sqlite_contiguous_ids (env : Env) (opts : Options) (w : World)
    (dp : String) (L : Logger) (w₁ : World)
    (calls : List (String × String × String))
    (hb : env.browser = false) (hl : env.sqliteLoaded = true)
    (hi : env.dbInitFails dp = false)
    (ht : jsOr opts.type "console" = "sqlite")
    (hdp : jsStrOpt opts.dbPath = some dp)
    (hfresh : lookupStr w.dbs dp = none)
    (hmk : mkLogger env opts w = .ok (L, w₁)) :
    lookupStr (logMany L calls w₁).dbs dp
      = some ⟨mkRows 1 calls, 1 + calls.length, true⟩
    ∧ (mkRows 1 calls).map Row.id = idsFrom 1 calls.length
    ∧ (mkRows 1 calls).length = calls.length := by
  simp only [mkLogger, ht, hb, hl, hi, hdp, reduceIte, String.reduceEq,
    Bool.not_true, Bool.false_eq_true, Except.ok.injEq, Prod.mk.injEq] at hmk
  obtain ⟨hL, hw⟩ := hmk
  subst hL; subst hw
  refine ⟨?_, mkRows_map_id calls 1, mkRows_length calls 1⟩
  have hopen : lookupStr (dbOpen w.dbs dp) dp = some ⟨[], 1, true⟩ := by
    simp [dbOpen, hfresh, lookupStr_setStr_self]
  have h := logMany_sqlite dp calls ⟨"sqlite", none, some dp, some dp⟩
      { w with dbs := dbOpen w.dbs dp } ⟨[], 1, true⟩ rfl rfl hopen rfl
  simpa using h

/-- C7 witness: two `record` calls on a fresh EmbeddedTable sink produce
rows with ids 1 and 2. -/
theorem c7_sqlite_contiguous_ids_witness :
    lookupStr (logMany ⟨"sqlite", none, some "db", some "db"⟩
        [("T1", "info", "a"), ("T2", "warn", "b")]
        ⟨[], [("db", ⟨[], 1, true⟩)], []⟩).dbs "db"
      = some ⟨[⟨1, "T1", "info", "a"⟩, ⟨2, "T2", "warn", "b"⟩], 3, true⟩
    ∧ ([⟨1, "T1", "info", "a"⟩, ⟨2, "T2", "warn", "b"⟩] : List Row).map Row.id
        = idsFrom 1 2 := by
  have h := c7_sqlite_contiguous_ids envOk ⟨some "sqlite", none, some "db"⟩ w0 "db"
      ⟨"sqlite", none, some "db", some "db"⟩ ⟨[], [("db", ⟨[], 1, true⟩)], []⟩
      [("T1", "info", "a"), ("T2", "warn", "b")] rfl rfl rfl rfl rfl rfl rfl
  exact ⟨h.1, h.2.1⟩

/-- C1 (amended): whenever the construction-time header write
(`Bun.writeFileSync`) cannot fail, constructing the Logger either succeeds
or raises one of the constructor's own `ConfigurationError`s — never any
other error type.  (Without that proviso the claim fails: the header write
sits outside any `try`/`catch`, see the counterexample.) -/
theorem c1_construct_ok_or_config (env : Env) (opts : Options) (w : World)
    (hok : ∀ p, env.headerWriteFails p = false) :
    okOrConfig (mkLogger env opts w) = true := by
  by_cases h1 : jsOr opts.type "console" = "csv"
  · cases hfp : jsStrOpt opts.filePath with
    | none => simp [mkLogger, h1, hfp, okOrConfig]
    | some fp =>
      cases hex : (lookupStr w.fs fp).isSome <;>
        simp [mkLogger, h1, hfp, hex, hok fp, okOrConfig]
  · by_cases h2 : jsOr opts.type "console" = "sqlite"
    · cases hb : env.browser
      · cases hdp : jsStrOpt opts.dbPath with
        | none => simp [mkLogger, h1, h2, hb, hdp, okOrConfig]
        | some dp =>
          cases hl : env.sqliteLoaded <;> cases hi : env.dbInitFails dp <;>
            simp [mkLogger, h1, h2, hb, hdp, hl, hi, okOrConfig]
      · simp [mkLogger, h1, h2, hb, okOrConfig]
    · simp [mkLogger, h1, h2, okOrConfig]

/-- C1 witness: a `"csv"` request without `filePath` raises exactly a
`ConfigurationError`. -/
theorem c1_construct_ok_or_config_witness :
    okOrConfig (mkLogger envOk ⟨some "csv", none, none⟩ w0) = true :=
  c1_construct_ok_or_config envOk ⟨some "csv", none, none⟩ w0 (fun _ => rfl)

/-- C1 counterexample: in an environment where the header write fails,
constructing a `"csv"` Logger over a missing file raises the I/O error of
the unprotected `Bun.writeFileSync` — not a `ConfigurationError`. -/
theorem c1_construct_ok_or_config_cex :
    okOrConfig (mkLogger envHdrFail ⟨some "csv", some "log.csv", none⟩ w0) = false := by
  decide

/-- C2 (amended): in every non-browser environment, requesting `"sqlite"`
without a `dbPath` option raises a `ConfigurationError` at construction
time.  (In a browser the constructor downgrades to Console before looking
at `dbPath`, so no error is raised there — see the counterexample.) -/
theorem c2_sqlite_missing_dbpath (env : Env) (opts : Options) (w : World)
    (hb : env.browser = false)
    (ht : jsOr opts.type "console" = "sqlite")
    (hdp : jsStrOpt opts.dbPath = none) :
    mkLogger env opts w
      = .error (.configError "SQLite logging requires a 'dbPath' option.") := by
  simp [mkLogger, ht, hb, hdp]

/-- C2 witness: `"sqlite"` with no `dbPath` in a non-browser environment
fails fast with the configuration error. -/
theorem c2_sqlite_missing_dbpath_witness :
    mkLogger envOk ⟨some "sqlite", none, none⟩ w0
      = .error (.configError "SQLite logging requires a 'dbPath' option.") :=
  c2_sqlite_missing_dbpath envOk ⟨some "sqlite", none, none⟩ w0 rfl rfl rfl

/-- C2 counterexample: in a browser environment, `"sqlite"` with no
`dbPath` constructs successfully (silent Console downgrade) — no
`ConfigurationError` is raised, contradicting the claim's "for every
environment". -/
theorem c2_sqlite_missing_dbpath_cex :
    exOk (mkLogger envBrowser ⟨some "sqlite", none, none⟩ w0) = true
    ∧ raisesConfig (mkLogger envBrowser ⟨some "sqlite", none, none⟩ w0) = false := by
  constructor <;> decide

/-- C3 (amended): the active backend changes away from the requested one
only at construction, only from EmbeddedTable to Console, and only when
the embedded-database capability is unavailable (browser context or
unloaded module) or initialization fails; exactly one side message is then
emitted on the diagnostic channel — warning-level in the browser case and
error-level otherwise.  After construction, no `log` or `close` call ever
changes the logger (in particular its active backend). -/
theorem c3_downgrade_only_at_construction :
    (∀ (env : Env) (opts : Options) (w : World) (L : Logger) (w' : World),
      mkLogger env opts w = .ok (L, w') →
      L.type ≠ jsOr opts.type "console" →
      jsOr opts.type "console" = "sqlite" ∧ L.type = "console"
        ∧ sqliteDowngraded env opts = true
        ∧ w'.events = w.events ++ [sqliteDowngradeDiag env])
    ∧ (∀ (L : Logger) (ioOk : Bool) (ts lvl msg : String) (w : World)
        (L' : Logger) (w' : World),
        Logger.log L ioOk ts lvl msg w = .ok (L', w') → L' = L)
    ∧ (∀ (env : Env) (L : Logger) (w : World) (L' : Logger) (w' : World),
        Logger.close env L w = .ok (L', w') → L' = L) := by
  refine ⟨?_, ?_, ?_⟩
  · intro env opts w L w' hmk hne
    by_cases h1 : jsOr opts.type "console" = "csv"
    · rw [h1] at hne
      cases hfp : jsStrOpt opts.filePath with
      | none => simp [mkLogger, h1, hfp] at hmk
      | some fp =>
        cases hex : (lookupStr w.fs fp).isSome <;>
          cases hhw : env.headerWriteFails fp <;>
          simp [mkLogger, h1, hfp, hex, hhw] at hmk <;>
          exact absurd (by rw [← hmk.1]) hne
    · by_cases h2 : jsOr opts.type "console" = "sqlite"
      · rw [h2] at hne ⊢
        cases hb : env.browser
        · cases hdp : jsStrOpt opts.dbPath with
          | none => simp [mkLogger, h1, h2, hb, hdp] at hmk
          | some dp =>
            cases hl : env.sqliteLoaded <;> cases hi : env.dbInitFails dp <;>
              simp [mkLogger, h1, h2, hb, hdp, hl, hi] at hmk
            · exact ⟨rfl, by rw [← hmk.1],
                by simp [sqliteDowngraded, hl],
                by rw [← hmk.2]; simp [sqliteDowngradeDiag, hb, hl]⟩
            · exact ⟨rfl, by rw [← hmk.1],
                by simp [sqliteDowngraded, hl],
                by rw [← hmk.2]; simp [sqliteDowngradeDiag, hb, hl]⟩
            · exact absurd (by rw [← hmk.1]) hne
            · exact ⟨rfl, by rw [← hmk.1],
                by simp [sqliteDowngraded, hl, hdp, hi],
                by rw [← hmk.2]; simp [sqliteDowngradeDiag, hb, hl]⟩
        · simp [mkLogger, h1, h2, hb] at hmk
          exact ⟨rfl, by rw [← hmk.1],
            by simp [sqliteDowngraded, hb],
            by rw [← hmk.2]; simp [sqliteDowngradeDiag, hb]⟩
      · simp [mkLogger, h1, h2] at hmk
        exact absurd (by rw [← hmk.1]) hne
  · intro L ioOk ts lvl msg w L' w' h
    simp only [Logger.log] at h
    repeat' split at h
    all_goals
      exact ((Except.ok.injEq _ _).mp h |> congrArg Prod.fst).symm
  · intro env L w L' w' h
    simp only [Logger.close] at h
    repeat' split at h
    all_goals
      exact ((Except.ok.injEq _ _).mp h |> congrArg Prod.fst).symm

/-- C3 witness: a concrete downgrade (module unavailable) matches the
amended characterization: requested `"sqlite"`, active backend
`"console"`, the downgrade condition holds, and exactly the downgrade
diagnostic was emitted. -/
theorem c3_downgrade_only_at_construction_witness :
    jsOr (some "sqlite") "console" = "sqlite" ∧ ("console" : String) = "console"
    ∧ sqliteDowngraded envNoDb ⟨some "sqlite", none, some "db"⟩ = true
    ∧ ([ConsoleEvent.error "Database module is not available."] : List ConsoleEvent)
        = w0.events ++ [sqliteDowngradeDiag envNoDb] := by
  have h := c3_downgrade_only_at_construction.1 envNoDb
      ⟨some "sqlite", none, some "db"⟩ w0 ⟨"console", none, some "db", none⟩
      ⟨[], [], [ConsoleEvent.error "Database module is not available."]⟩
      rfl (by decide)
  exact h

/-- C3 counterexample: when the database module is unavailable outside a
browser, the downgrade's side message is error-level (`console.error`),
not warning-level as the claim states — no warning-level message is
emitted at all. -/
theorem c3_downgrade_only_at_construction_cex :
    c3cexResult.1.type = "console"
    ∧ c3cexResult.2.events = [ConsoleEvent.error "Database module is not available."]
    ∧ hasWarn c3cexResult.2.events = false := by
  refine ⟨by decide, by decide, by decide⟩

end BunForge
